import Mathlib

/-!
Verification of the GlobalRTS connection broker and pairing subsystem.

This file is a shallow embedding of the Rust sources of the repository:

* `state.rs`   — SQLite-backed device registry and pairing state machine,
  modelled as pure functions over an explicit `StateDb` value (the two
  tables the claims touch: `devices` and `pairing_requests`, kept as lists
  in row/insertion order, which is the order SQLite scans them in for the
  unindexed-unordered queries the code issues).
* `http.rs`    — the demux decision of `handle_request` and the
  `/api/pair/confirm` handler.
* `websocket.rs` — the RFC 6455 frame codec (`read` / `write_frame`) over
  byte lists (`List Nat`, every byte `< 256`).
* `main.rs`    — the `register` arm of `handle_message`, over a `Server`
  value with an explicit send trace.

Machine integers are modelled as `Nat`/`Int` with explicit `% 2 ^ w`
where the Rust code truncates (`as u64`, `as usize`, `wrapping_mul`).
Clock reads (`now_unix`, nanosecond timestamps) are passed in as explicit
parameters. Database I/O errors are not modelled: every store operation
is total, which matches the happy path the claims are about.
-/

namespace GlobalRTS

/-! ## Data model (protocol.rs, state.rs) -/

/-- One row of the `devices` table (state.rs schema, lines 48–62).
Floating-point columns are modelled as `Int`: the broker only ever
stores and copies them, never computes with them. -/
structure DeviceRow where
  id : String
  name : String
  deviceType : String
  status : String
  latitude : Int
  longitude : Int
  altitude : Int
  heading : Int
  speed : Int
  battery : Int
  lastSeen : Int
  token : Option String
  pairedAt : Int
deriving DecidableEq, Repr

/-- One row of the `pairing_requests` table (state.rs lines 66–73). -/
structure PairingRequest where
  deviceId : String
  name : String
  deviceType : String
  code : String
  createdAt : Int
  expiresAt : Int
deriving DecidableEq, Repr

/-- The persistent store: the two tables the claims are about, each as a
list of rows in insertion (rowid) order. -/
structure StateDb where
  devices : List DeviceRow
  pairingRequests : List PairingRequest
deriving DecidableEq, Repr

/-- `DeviceInfo` from protocol.rs (the shape `upsert_device` receives). -/
structure DeviceInfo where
  id : String
  name : String
  deviceType : String
  status : String
  latitude : Int
  longitude : Int
  altitude : Int
  heading : Int
  speed : Int
  battery : Int
  lastSeen : Int
deriving DecidableEq, Repr

/-- `RegisterMessage` from protocol.rs. -/
structure RegisterMessage where
  token : Option String
  deviceId : String
  deviceType : String
  name : String
  latitude : Int
  longitude : Int
  altitude : Int
  capabilities : List String
deriving DecidableEq, Repr

/-! ## Code and token generation (state.rs lines 440–473) -/

/-- The 32-symbol confusable-free alphabet of `generate_code`
(state.rs line 442). -/
def codeAlphabet : String := "ABCDEFGHJKLMNPQRSTUVWXYZ23456789"

/-- Index computation for character `i` of a pairing code:
`((t >> (i*8)) ^ (t >> (i*4+3))) as usize % chars.len()` on a `u128`
clock value `t`. The `as usize` truncation is the explicit `% 2^64`. -/
def codeIdx (t : Nat) (i : Nat) : Nat :=
  (((t >>> (i * 8)) ^^^ (t >>> (i * 4 + 3))) % 2 ^ 64) % 32

/-- `generate_code` (state.rs lines 441–455): six characters indexed into
the confusable-free alphabet from the nanosecond clock value `nanos`. -/
def generateCode (nanos : Nat) : String :=
  let t := nanos % 2 ^ 128
  ⟨(List.range 6).map (fun i => codeAlphabet.data.getD (codeIdx t i) 'A')⟩

/-- The multiplier `0x5851F42D4C957F2D` of `generate_token`. -/
def tokenMul : Nat := 0x5851F42D4C957F2D

/-- `format!("{:016x}", v)` for a `u64` value: lowercase hex, left-padded
with zeros to width 16. -/
def hex16 (v : Nat) : String :=
  let s := Nat.toDigits 16 (v % 2 ^ 64)
  ⟨List.replicate (16 - s.length) '0' ++ s⟩

/-- `generate_token` (state.rs lines 458–473): eight 16-hex-digit blocks
`(t >> (i*16)) ^ (t.wrapping_mul(M) >> (i*8)) as u64` concatenated and
truncated to 64 characters. -/
def generateToken (nanos : Nat) : String :=
  let t := nanos % 2 ^ 128
  let blocks := (List.range 8).map
    (fun i => hex16 (((t >>> (i * 16)) ^^^ ((t * tokenMul) % 2 ^ 128 >>> (i * 8))) % 2 ^ 64))
  (blocks.foldl (fun a b => a ++ b) "").take 64

/-! ## Pairing state machine (state.rs) -/

/-- `create_pairing_request` (state.rs lines 106–128): delete any existing
request for the device, insert a fresh one expiring 300 s from `now`,
return the generated code. `now` is the seconds clock, `nanos` the
nanosecond clock feeding `generate_code`. -/
def createPairingRequest (st : StateDb) (deviceId name deviceType : String)
    (now : Int) (nanos : Nat) : String × StateDb :=
  let code := generateCode nanos
  let kept := st.pairingRequests.filter (fun r => !(r.deviceId == deviceId))
  (code, { st with pairingRequests :=
    kept ++ [{ deviceId := deviceId, name := name, deviceType := deviceType,
               code := code, createdAt := now, expiresAt := now + 300 }] })

/-- The row match of `confirm_pairing`'s SELECT:
`device_id = ?1 AND code = ?2 AND expires_at > ?3`. -/
def confirmMatch (deviceId code : String) (now : Int) (r : PairingRequest) : Bool :=
  r.deviceId == deviceId && r.code == code && now < r.expiresAt

/-- The device upsert performed by `confirm_pairing` (state.rs lines
150–159): insert with status `offline`, the fresh token, `paired_at` and
`last_seen` both `now` and schema defaults for the pose columns; on
conflict update only name, device_type, token and paired_at. -/
def confirmUpsert (devs : List DeviceRow) (deviceId name deviceType token : String)
    (now : Int) : List DeviceRow :=
  if devs.any (fun d => d.id == deviceId) then
    devs.map (fun d =>
      if d.id == deviceId then
        { d with name := name, deviceType := deviceType,
                 token := some token, pairedAt := now }
      else d)
  else
    devs ++ [{ id := deviceId, name := name, deviceType := deviceType,
               status := "offline", latitude := 0, longitude := 0, altitude := 0,
               heading := 0, speed := 0, battery := 100, lastSeen := now,
               token := some token, pairedAt := now }]

/-- `confirm_pairing` (state.rs lines 132–171): look up a request matching
device_id, code and strict expiry; on a hit mint a token, upsert the
device row and delete the request; otherwise return the error and leave
the store untouched. -/
def confirmPairing (st : StateDb) (deviceId code : String) (now : Int)
    (nanos : Nat) : Except String String × StateDb :=
  match st.pairingRequests.find? (confirmMatch deviceId code now) with
  | some r =>
      let token := generateToken nanos
      (Except.ok token,
        { devices := confirmUpsert st.devices deviceId r.name r.deviceType token now,
          pairingRequests :=
            st.pairingRequests.filter (fun q => !(q.deviceId == deviceId)) })
  | none => (Except.error "Invalid or expired code", st)

/-- `validate_token` (state.rs lines 227–237): the first `devices` row
whose token equals the argument, if any. -/
def validateToken (st : StateDb) (token : String) : Option String :=
  (st.devices.find? (fun d => d.token == some token)).map (fun d => d.id)

/-- `upsert_device` (state.rs lines 268–301): insert every `DeviceInfo`
field; on conflict update them all. The `token` and `paired_at` columns
are not named, so an insert takes their schema defaults (NULL, 0) and an
update leaves them alone. -/
def upsertDevice (st : StateDb) (d : DeviceInfo) : StateDb :=
  { st with devices :=
      if st.devices.any (fun r => r.id == d.id) then
        st.devices.map (fun r =>
          if r.id == d.id then
            { r with name := d.name, deviceType := d.deviceType,
                     status := d.status, latitude := d.latitude,
                     longitude := d.longitude, altitude := d.altitude,
                     heading := d.heading, speed := d.speed,
                     battery := d.battery, lastSeen := d.lastSeen }
          else r)
      else
        st.devices ++ [{ id := d.id, name := d.name, deviceType := d.deviceType,
                         status := d.status, latitude := d.latitude,
                         longitude := d.longitude, altitude := d.altitude,
                         heading := d.heading, speed := d.speed,
                         battery := d.battery, lastSeen := d.lastSeen,
                         token := none, pairedAt := 0 }] }

/-- `update_telemetry` (state.rs lines 304–318): update the pose columns,
battery, status `online` and `last_seen` of the row keyed by the id. -/
def updateTelemetry (st : StateDb) (deviceId : String)
    (lat lon alt heading speed battery now : Int) : StateDb :=
  { st with devices := st.devices.map (fun r =>
      if r.id == deviceId then
        { r with latitude := lat, longitude := lon, altitude := alt,
                 heading := heading, speed := speed, battery := battery,
                 status := "online", lastSeen := now }
      else r) }

/-- `set_status` (state.rs lines 321–331). -/
def setStatus (st : StateDb) (deviceId status : String) (now : Int) : StateDb :=
  { st with devices := st.devices.map (fun r =>
      if r.id == deviceId then { r with status := status, lastSeen := now }
      else r) }

/-! ## HTTP surface (http.rs) -/

/-- ASCII upper-casing of a string, character by character — the effect of
Rust's `str::to_uppercase` on the ASCII device ids and pairing codes this
system exchanges. -/
def strToUpper (s : String) : String := ⟨s.data.map Char.toUpper⟩

/-- ASCII lower-casing, used only to phrase the spec's case-insensitive
comparisons. -/
def strToLower (s : String) : String := ⟨s.data.map Char.toLower⟩

/-- The spec's case-insensitive string equality ("compared
case-insensitively; inputs are upper-cased"). -/
def ciEq (a b : String) : Bool := strToUpper a == strToUpper b

/-- The `/api/pair/confirm` handler (http.rs lines 255–285): reject empty
device_id or code with a 400, otherwise call `confirm_pairing` with the
upper-cased code. -/
def apiPairConfirm (st : StateDb) (deviceId code : String) (now : Int)
    (nanos : Nat) : Except String String × StateDb :=
  if deviceId == "" || code == "" then
    (Except.error "device_id and code required", st)
  else
    confirmPairing st deviceId (strToUpper code) now nanos

/-- Substring containment on character lists: Rust's `str::contains` with
a string pattern. True iff some tail of the haystack starts with the
needle. -/
def containsSub (needle hay : List Char) : Bool :=
  hay.tails.any (fun t => needle.isPrefixOf t)

/-- The demux decision at the top of `handle_request` (http.rs lines
122–125): the connection is handed to the WebSocket codec (the function
returns `false`) iff the raw request head contains the literal substring
`Upgrade: websocket` or `upgrade: websocket`. -/
def wsUpgradeHandoff (request : String) : Bool :=
  containsSub "Upgrade: websocket".data request.data ||
  containsSub "upgrade: websocket".data request.data

/-- Split a character list at every CRLF separator — the header lines of
a request head. -/
def splitCRLF (acc : List Char) : List Char → List (List Char)
  | [] => [acc.reverse]
  | '\r' :: '\n' :: rest => acc.reverse :: splitCRLF [] rest
  | c :: rest => splitCRLF (c :: acc) rest

/-- Modelled from the spec (§4.1): "If any header line, case-insensitively,
is `Upgrade: websocket`, hand off to Frame Codec". The request head is
split on `\r\n` and each line compared case-insensitively (ASCII
lower-casing). This is the spec-side definition the demux decision is
checked against. -/
def hasUpgradeLineCI (request : String) : Bool :=
  (splitCRLF [] request.data).any
    (fun l => l.map Char.toLower == "upgrade: websocket".data)

/-! ## RFC 6455 frame codec (websocket.rs) over byte lists -/

/-- Big-endian byte encoding of `n` into exactly `k` bytes — `to_be_bytes`
on the `k`-byte integer `n % 256^k`. -/
def beBytes : Nat → Nat → List Nat
  | 0, _ => []
  | k + 1, n => beBytes k (n / 256) ++ [n % 256]

/-- Big-endian byte decoding — `from_be_bytes`. -/
def fromBeBytes (l : List Nat) : Nat := l.foldl (fun a b => a * 256 + b) 0

/-- `read_exact` on a byte stream: take exactly `n` bytes or fail. -/
def readExact (n : Nat) (s : List Nat) : Option (List Nat × List Nat) :=
  if n ≤ s.length then some (s.take n, s.drop n) else none

/-- XOR-unmasking of a payload with a 4-byte key:
`payload[i] ^ mask[i % 4]` (websocket.rs lines 136–140). Applying it
twice with the same key is the client-side masking. -/
def maskBytes (mask : List Nat) : Nat → List Nat → List Nat
  | _, [] => []
  | i, b :: bs => (b ^^^ mask.getD (i % 4) 0) :: maskBytes mask (i + 1) bs

/-- UTF-8 validity of a byte list — the check `String::from_utf8`
performs in the text-opcode arm of `read`. A Rust `String` is exactly a
valid-UTF-8 byte sequence, so text payloads are modelled as their bytes. -/
def validUTF8 : List Nat → Bool
  | [] => true
  | b :: rest =>
    if b < 0x80 then validUTF8 rest
    else if 0xC2 ≤ b && b ≤ 0xDF then
      match rest with
      | c1 :: rest2 => 0x80 ≤ c1 && c1 ≤ 0xBF && validUTF8 rest2
      | [] => false
    else if b == 0xE0 then
      match rest with
      | c1 :: c2 :: rest2 =>
        0xA0 ≤ c1 && c1 ≤ 0xBF && (0x80 ≤ c2 && c2 ≤ 0xBF) && validUTF8 rest2
      | _ => false
    else if (0xE1 ≤ b && b ≤ 0xEC) || b == 0xEE || b == 0xEF then
      match rest with
      | c1 :: c2 :: rest2 =>
        0x80 ≤ c1 && c1 ≤ 0xBF && (0x80 ≤ c2 && c2 ≤ 0xBF) && validUTF8 rest2
      | _ => false
    else if b == 0xED then
      match rest with
      | c1 :: c2 :: rest2 =>
        0x80 ≤ c1 && c1 ≤ 0x9F && (0x80 ≤ c2 && c2 ≤ 0xBF) && validUTF8 rest2
      | _ => false
    else if b == 0xF0 then
      match rest with
      | c1 :: c2 :: c3 :: rest2 =>
        0x90 ≤ c1 && c1 ≤ 0xBF && (0x80 ≤ c2 && c2 ≤ 0xBF) &&
        (0x80 ≤ c3 && c3 ≤ 0xBF) && validUTF8 rest2
      | _ => false
    else if 0xF1 ≤ b && b ≤ 0xF3 then
      match rest with
      | c1 :: c2 :: c3 :: rest2 =>
        0x80 ≤ c1 && c1 ≤ 0xBF && (0x80 ≤ c2 && c2 ≤ 0xBF) &&
        (0x80 ≤ c3 && c3 ≤ 0xBF) && validUTF8 rest2
      | _ => false
    else if b == 0xF4 then
      match rest with
      | c1 :: c2 :: c3 :: rest2 =>
        0x80 ≤ c1 && c1 ≤ 0x8F && (0x80 ≤ c2 && c2 ≤ 0xBF) &&
        (0x80 ≤ c3 && c3 ≤ 0xBF) && validUTF8 rest2
      | _ => false
    else false

/-- WebSocket connection state (websocket.rs lines 33–38). -/
inductive WsState where
  | open
  | closing
  | closed
deriving DecidableEq, Repr

/-- Result of one `WebSocket::read` call: the returned value
(`Err` / `Ok None` / `Ok (Some payload­-bytes)`), the unconsumed input
bytes, the bytes written back (close echo / pong), and the connection
state afterwards. -/
structure ReadResult where
  msg : Except String (Option (List Nat))
  rest : List Nat
  out : List Nat
  state : WsState
deriving Repr

/-- `write_frame` (websocket.rs lines 174–196): first byte `0x80 | opcode`
(FIN set), then the unmasked 7/16/64-bit length encoding chosen by
`len < 126` / `len < 65536` / otherwise, then the payload verbatim. -/
def writeFrame (payload : List Nat) (opcode : Nat) : List Nat :=
  let len := payload.length
  (0x80 ||| opcode) ::
    (if len < 126 then [len]
     else if len < 65536 then 126 :: beBytes 2 len
     else 127 :: beBytes 8 (len % 2 ^ 64)) ++ payload

/-- `WebSocket::read` (websocket.rs lines 88–163) over an input byte
list. A short header read is the non-blocking "no message" case; short
reads after the header are errors, as `read_exact` fails there. Text
payloads are UTF-8-validated and returned; a close is echoed and moves
the state to `closed`; a ping is answered with a pong; pongs and unknown
opcodes yield nothing. -/
def wsRead (state : WsState) (input : List Nat) : ReadResult :=
  if state != WsState.open then
    { msg := Except.ok none, rest := input, out := [], state := state }
  else
    match readExact 2 input with
    | none => { msg := Except.ok none, rest := input, out := [], state := state }
    | some (header, s1) =>
      let b0 := header.getD 0 0
      let b1 := header.getD 1 0
      let opcode := b0 &&& 0x0F
      let masked := b1 &&& 0x80 != 0
      let len7 := b1 &&& 0x7F
      let extLen : Option (Nat × List Nat) :=
        if len7 == 126 then
          match readExact 2 s1 with
          | some (ext, s2) => some ((fromBeBytes ext) % 2 ^ 64, s2)
          | none => none
        else if len7 == 127 then
          match readExact 8 s1 with
          | some (ext, s2) => some ((fromBeBytes ext) % 2 ^ 64, s2)
          | none => none
        else some (len7, s1)
      match extLen with
      | none => { msg := Except.error "eof", rest := s1, out := [], state := state }
      | some (payloadLen, s2) =>
        let maskRead : Option (Option (List Nat) × List Nat) :=
          if masked then
            match readExact 4 s2 with
            | some (m, s3) => some (some m, s3)
            | none => none
          else some (none, s2)
        match maskRead with
        | none => { msg := Except.error "eof", rest := s2, out := [], state := state }
        | some (mask, s3) =>
          match readExact payloadLen s3 with
          | none => { msg := Except.error "eof", rest := s3, out := [], state := state }
          | some (raw, s4) =>
            let payload := match mask with
              | some m => maskBytes m 0 raw
              | none => raw
            if opcode == 0x1 then
              if validUTF8 payload then
                { msg := Except.ok (some payload), rest := s4, out := [], state := state }
              else
                { msg := Except.error "invalid utf-8", rest := s4, out := [], state := state }
            else if opcode == 0x8 then
              { msg := Except.ok none, rest := s4,
                out := writeFrame payload 0x8, state := WsState.closed }
            else if opcode == 0x9 then
              { msg := Except.ok none, rest := s4,
                out := writeFrame payload 0xA, state := state }
            else
              { msg := Except.ok none, rest := s4, out := [], state := state }

/-- The frame a compliant client sends for text payload `p` masked with
the 4-byte key `m`: FIN+text first byte, MASK bit on the length byte, the
same 7/16/64-bit length split, the key, then the masked payload. -/
def clientTextFrame (m : List Nat) (p : List Nat) : List Nat :=
  let len := p.length
  0x81 ::
    (if len < 126 then [0x80 ||| len]
     else if len < 65536 then (0x80 ||| 126) :: beBytes 2 len
     else (0x80 ||| 127) :: beBytes 8 (len % 2 ^ 64)) ++
    m ++ maskBytes m 0 p

/-! ## Connection registry and the register handler (main.rs) -/

/-- `ClientType` (main.rs lines 71–76). -/
inductive ClientType where
  | unknown
  | device
  | ui
deriving DecidableEq, Repr

/-- A registry entry (main.rs `Client`, lines 65–69). The transport is
abstracted to `sendOk`: whether a write on this peer's socket currently
succeeds. The code discards every send result (`let _ = ws.send(..)`),
so no other aspect of the transport is observable here. -/
structure Client where
  clientType : ClientType
  deviceId : Option String
  sendOk : Bool
deriving DecidableEq, Repr

/-- The envelopes the register arm emits. -/
inductive Msg where
  | registered (device : DeviceInfo)
  | deviceOnline (device : DeviceInfo)
  | errEnv (code : String)
deriving DecidableEq, Repr

/-- One attempted transport write: which peer, which envelope, and
whether the write succeeded. -/
structure SendEvent where
  clientId : Nat
  msg : Msg
  ok : Bool
deriving DecidableEq, Repr

/-- The broker state `Server` (main.rs lines 78–83), with an explicit
trace of attempted sends in program order. -/
structure Server where
  clients : List (Nat × Client)
  nextId : Nat
  db : StateDb
  trace : List SendEvent
deriving Repr

/-- One `client.ws.send(..)` on the peer `cid` when it is present in the
registry: append the attempt (with its success bit) to the trace. -/
def sendToClient (s : Server) (cid : Nat) (m : Msg) : Server :=
  match s.clients.lookup cid with
  | some c => { s with trace := s.trace ++ [{ clientId := cid, msg := m, ok := c.sendOk }] }
  | none => s

/-- `broadcast_to_uis` (main.rs lines 121–128): attempt one send to every
peer whose role is UI, failures discarded. -/
def broadcastToUis (s : Server) (m : Msg) : Server :=
  { s with trace := s.trace ++
      ((s.clients.filter (fun p => p.2.clientType == ClientType.ui)).map
        (fun p => { clientId := p.1, msg := m, ok := p.2.sendOk : SendEvent })) }

/-- The `DeviceInfo` the register arm builds (main.rs lines 191–203):
status `online`, pose from the message, heading/speed zero, battery 100,
`last_seen` now. -/
def registerDevice (reg : RegisterMessage) (deviceId : String) (now : Int) : DeviceInfo :=
  { id := deviceId, name := reg.name, deviceType := reg.deviceType,
    status := "online", latitude := reg.latitude, longitude := reg.longitude,
    altitude := reg.altitude, heading := 0, speed := 0, battery := 100,
    lastSeen := now }

/-- The `register` arm of `handle_message` (main.rs lines 174–248).
An empty or missing token gets the `no_token` error envelope; a token
unknown to the store gets `invalid_token`; a valid token upserts the
device (falling back to the token's stored id when the message's is
empty), marks the peer as a Device bound to that id, replies `registered`
on that peer, then broadcasts `device:online` to the UI peers. The
database-failure reply arm (`db_error`) is not modelled, as store calls
are total here. -/
def handleRegister (s : Server) (clientId : Nat) (reg : RegisterMessage)
    (now : Int) : Server :=
  let token := reg.token.getD ""
  if token == "" then
    sendToClient s clientId (Msg.errEnv "no_token")
  else
    match validateToken s.db token with
    | none => sendToClient s clientId (Msg.errEnv "invalid_token")
    | some storedId =>
      let deviceId := if reg.deviceId == "" then storedId else reg.deviceId
      let device := registerDevice reg deviceId now
      let s1 := { s with db := upsertDevice s.db device }
      let s2 := { s1 with clients := s1.clients.map (fun p =>
        if p.1 == clientId then
          (p.1, { p.2 with clientType := ClientType.device, deviceId := some deviceId })
        else p) }
      let s3 := sendToClient s2 clientId (Msg.registered device)
      broadcastToUis s3 (Msg.deviceOnline device)

/-! ## Projections and invariants the theorems speak about -/

/-- The pairing-relevant columns of a device row: its key, its token and
its `paired_at` stamp. -/
def devicePairingFields (d : DeviceRow) : String × Option String × Int :=
  (d.id, d.token, d.pairedAt)

/-- Well-formedness of the pending pairing requests, as established by
their only producer `create_pairing_request` fed from the HTTP create
endpoint: codes are six characters of the upper-case alphabet (so ASCII
upper-casing fixes them) and device ids are non-empty. -/
def requestsWF (st : StateDb) : Prop :=
  ∀ r ∈ st.pairingRequests, strToUpper r.code = r.code ∧ r.code.length = 6 ∧ r.deviceId ≠ ""

/-- Distinctness of non-null tokens across device rows: no token value is
carried by two rows. -/
def tokensDistinct (devs : List DeviceRow) : Prop :=
  devs.Pairwise (fun a b => ∀ t : String, a.token = some t → b.token ≠ some t)

/-- Distinctness of the primary keys of the `devices` table. -/
def deviceIdsDistinct (devs : List DeviceRow) : Prop :=
  devs.Pairwise (fun a b => a.id ≠ b.id)

/-- Whether an envelope is a `registered` reply. -/
def isRegisteredMsg : Msg → Bool
  | Msg.registered _ => true
  | _ => false

/-- Whether an envelope is a `device:online` broadcast. -/
def isDeviceOnlineMsg : Msg → Bool
  | Msg.deviceOnline _ => true
  | _ => false

/-! ## Theorems -/

/-- C9: every invocation of `generate_code`, whatever the clock value,
returns a code of length exactly 6 whose characters all belong to the
32-symbol confusable-free alphabet (upper-case letters and digits
excluding I, O, 0 and 1). -/
theorem generateCode_alphabet (t : Nat) :
    (generateCode t).length = 6 ∧
    ∀ c ∈ (generateCode t).data, c ∈ codeAlphabet.data := by
  constructor
  · rfl
  · intro c hc
    simp only [generateCode, List.mem_map, List.mem_range] at hc
    obtain ⟨i, _, rfl⟩ := hc
    have h32 : codeIdx (t % 2 ^ 128) i < 32 := Nat.mod_lt _ (by norm_num)
    revert h32
    generalize codeIdx (t % 2 ^ 128) i = k
    revert k
    decide

/-- Witness for C9 at clock value 0. -/
theorem generateCode_alphabet_witness :
    (generateCode 0).length = 6 ∧ 'A' ∈ codeAlphabet.data :=
  ⟨(generateCode_alphabet 0).1, (generateCode_alphabet 0).2 'A' (by decide)⟩

/-- C5: whenever `confirm_pairing` fails, it returns exactly the error
"Invalid or expired code" and leaves the store unchanged — no device row
is created or modified, no token is minted, and the pending pairing
requests are exactly those before the call. -/
theorem confirmPairing_failure_unchanged (st : StateDb) (deviceId code : String)
    (now : Int) (nanos : Nat)
    (h : (confirmPairing st deviceId code now nanos).1.isOk = false) :
    confirmPairing st deviceId code now nanos =
      (Except.error "Invalid or expired code", st) := by
  unfold confirmPairing at h ⊢
  cases hf : st.pairingRequests.find? (confirmMatch deviceId code now) with
  | none => simp
  | some r => rw [hf] at h; simp [Except.isOk, Except.toBool] at h

/-- Witness for C5: a confirm against an empty store fails with the
documented error and returns the store untouched. -/
theorem confirmPairing_failure_unchanged_witness :
    confirmPairing ⟨[], []⟩ "r1" "ABC234" 0 0 =
      (Except.error "Invalid or expired code", (⟨[], []⟩ : StateDb)) :=
  confirmPairing_failure_unchanged _ _ _ _ _ (by rfl)

/-- C10: the WebSocket-path store updates preserve the pairing columns.
`upsert_device` leaves every existing row's id, token and paired_at
untouched and inserts new rows with a NULL token and default paired_at;
`update_telemetry` leaves the id, token and paired_at of every row
untouched. -/
theorem wsStore_preserves_pairing_fields (st : StateDb) (dev : DeviceInfo)
    (deviceId : String) (lat lon alt heading speed battery now : Int) :
    ((upsertDevice st dev).devices.map devicePairingFields =
      if st.devices.any (fun r => r.id == dev.id) then
        st.devices.map devicePairingFields
      else st.devices.map devicePairingFields ++ [(dev.id, none, 0)]) ∧
    ((updateTelemetry st deviceId lat lon alt heading speed battery now).devices.map
        devicePairingFields = st.devices.map devicePairingFields) := by
  constructor
  · unfold upsertDevice
    by_cases h : st.devices.any (fun r => r.id == dev.id)
    · simp only [h, if_true, List.map_map]
      refine List.map_congr_left ?_
      intro r _
      by_cases hr : r.id == dev.id <;> simp [Function.comp, hr, devicePairingFields]
    · simp only [eq_false_of_ne_true h, Bool.false_eq_true, if_false, List.map_append,
        List.map_cons, List.map_nil, devicePairingFields]
  · unfold updateTelemetry
    simp only [List.map_map]
    refine List.map_congr_left ?_
    intro r _
    by_cases hr : r.id == deviceId <;> simp [Function.comp, hr, devicePairingFields]

/-- Success of `confirm_pairing` is exactly the presence of a matching
request row. -/
theorem confirmPairing_isOk_eq (st : StateDb) (deviceId code : String)
    (now : Int) (nanos : Nat) :
    (confirmPairing st deviceId code now nanos).1.isOk =
      (st.pairingRequests.find? (confirmMatch deviceId code now)).isSome := by
  unfold confirmPairing
  cases hf : st.pairingRequests.find? (confirmMatch deviceId code now) with
  | none => simp [Except.isOk, Except.toBool]
  | some r => simp [Except.isOk, Except.toBool]

/-- C4: the API-level confirm succeeds iff a pending request exists whose
device_id matches and whose code matches compared case-insensitively
(the handler upper-cases the input before the store's exact comparison)
and whose expires_at is strictly greater than now — so a request whose
expires_at equals the current time is rejected. Stated for stores whose
pending requests are well-formed (their only producer generates
upper-case six-character codes for non-empty device ids). -/
theorem apiPairConfirm_success_iff (st : StateDb) (deviceId code : String)
    (now : Int) (nanos : Nat) (hwf : requestsWF st) :
    (apiPairConfirm st deviceId code now nanos).1.isOk = true ↔
      ∃ r ∈ st.pairingRequests,
        r.deviceId = deviceId ∧ ciEq code r.code = true ∧ now < r.expiresAt := by
  unfold apiPairConfirm
  by_cases hid : (deviceId == "") = true
  · have hid' : deviceId = "" := by exact_mod_cast eq_of_beq hid
    simp only [hid, Bool.true_or, if_true]
    constructor
    · intro h; simp [Except.isOk, Except.toBool] at h
    · rintro ⟨r, hr, hdid, -, -⟩
      exact absurd (hdid.trans hid') (hwf r hr).2.2
  · by_cases hcode : (code == "") = true
    · have hcode' : code = "" := by exact_mod_cast eq_of_beq hcode
      simp only [hid, hcode, Bool.or_true, if_true]
      constructor
      · intro h; simp [Except.isOk, Except.toBool] at h
      · rintro ⟨r, hr, -, hci, -⟩
        have h1 : strToUpper code = strToUpper r.code := by
          exact_mod_cast eq_of_beq hci
        rw [hcode', (hwf r hr).1] at h1
        have : r.code.length = 0 := by rw [← h1]; rfl
        rw [(hwf r hr).2.1] at this
        exact absurd this (by norm_num)
    · simp only [hid, hcode, Bool.or_self, Bool.false_eq_true, if_false]
      rw [confirmPairing_isOk_eq, List.find?_isSome]
      constructor
      · rintro ⟨r, hr, hm⟩
        simp only [confirmMatch, Bool.and_eq_true, beq_iff_eq, decide_eq_true_eq] at hm
        refine ⟨r, hr, hm.1.1, ?_, hm.2⟩
        simp only [ciEq, beq_iff_eq, (hwf r hr).1]
        exact hm.1.2.symm
      · rintro ⟨r, hr, hdid, hci, hexp⟩
        refine ⟨r, hr, ?_⟩
        simp only [confirmMatch, Bool.and_eq_true, beq_iff_eq, decide_eq_true_eq]
        have h1 : strToUpper code = strToUpper r.code := by
          exact_mod_cast eq_of_beq hci
        rw [(hwf r hr).1] at h1
        exact ⟨⟨hdid, h1.symm⟩, hexp⟩

/-- Witness for C4: with a single request `("r1", code "ABC234")` expiring
at 300, confirming `"r1"` with lower-case `"abc234"` at time 5 succeeds. -/
theorem apiPairConfirm_success_iff_witness :
    (apiPairConfirm ⟨[], [⟨"r1", "Alpha", "robot", "ABC234", 0, 300⟩]⟩
        "r1" "abc234" 5 0).1.isOk = true :=
  (apiPairConfirm_success_iff _ _ _ _ _
      (by intro r hr; simp only [List.mem_singleton] at hr; subst hr
          exact ⟨by decide, by decide, by decide⟩)).mpr
    ⟨⟨"r1", "Alpha", "robot", "ABC234", 0, 300⟩, by decide, rfl, by decide, by decide⟩

/-- Searching a concatenation when the first part has no hit searches the
second part. -/
theorem find?_append_of_none {α : Type} (p : α → Bool) (l1 l2 : List α)
    (h : l1.find? p = none) : (l1 ++ l2).find? p = l2.find? p := by
  induction l1 with
  | nil => rfl
  | cons a l ih =>
    cases hpa : p a with
    | true => simp [List.find?_cons_of_pos _ hpa] at h
    | false =>
      have hpa' : ¬(p a = true) := by rw [hpa]; exact Bool.false_ne_true
      rw [List.find?_cons_of_neg _ hpa'] at h
      rw [List.cons_append, List.find?_cons_of_neg _ hpa']
      exact ih h

/-- After the upsert `confirm_pairing` performs with a token held by no
prior row, looking the token up finds exactly the confirmed device. -/
theorem find?_token_confirmUpsert (devs : List DeviceRow)
    (deviceId name dtype tok : String) (now : Int)
    (hfresh : ∀ d ∈ devs, d.token ≠ some tok) :
    ((confirmUpsert devs deviceId name dtype tok now).find?
        (fun d => d.token == some tok)).map (fun d => d.id) = some deviceId := by
  unfold confirmUpsert
  by_cases hany : devs.any (fun d => d.id == deviceId) = true
  · simp only [hany, if_true]
    obtain ⟨d0, hd0, hid0⟩ := List.any_eq_true.mp hany
    have hsome : ∃ x ∈ devs.map (fun d =>
        if d.id == deviceId then
          { d with name := name, deviceType := dtype,
                   token := some tok, pairedAt := now }
        else d), (fun d => d.token == some tok) x = true := by
      refine ⟨_, List.mem_map_of_mem _ hd0, ?_⟩
      simp [hid0]
    cases hfind : (devs.map (fun d =>
        if d.id == deviceId then
          { d with name := name, deviceType := dtype,
                   token := some tok, pairedAt := now }
        else d)).find? (fun d => d.token == some tok) with
    | none =>
      obtain ⟨x, hx, hpx⟩ := hsome
      exact absurd hpx (List.find?_eq_none.mp hfind x hx)
    | some y =>
      have hy := List.find?_some hfind
      obtain ⟨z, hz, rfl⟩ := List.mem_map.mp (List.mem_of_find?_eq_some hfind)
      by_cases hzid : (z.id == deviceId) = true
      · simp only [hzid, if_true, Option.map_some]
        simpa using eq_of_beq hzid
      · simp only [eq_false_of_ne_true hzid, Bool.false_eq_true, if_false,
          beq_iff_eq] at hy
        exact absurd hy (hfresh z hz)
  · simp only [eq_false_of_ne_true hany, Bool.false_eq_true, if_false]
    rw [find?_append_of_none _ _ _
      (List.find?_eq_none.mpr (fun d hd => by simpa using hfresh d hd))]
    simp [List.find?]

/-- C2: creating a pairing request and confirming it with the returned
code before expiry yields a token the store validates back to the same
device id; any subsequent confirm for that device id fails, because the
request was deleted on confirmation. Stated under freshness of the
minted token with respect to the existing device rows (token generation
is clock-derived, see C3). -/
theorem pairing_confirm_roundtrip (st : StateDb) (deviceId name deviceType : String)
    (t0 t1 : Int) (n0 n1 : Nat)
    (hexp : t1 < t0 + 300)
    (hfresh : ∀ d ∈ st.devices, d.token ≠ some (generateToken n1)) :
    ∃ st2 : StateDb,
      confirmPairing (createPairingRequest st deviceId name deviceType t0 n0).2
          deviceId (createPairingRequest st deviceId name deviceType t0 n0).1 t1 n1 =
        (Except.ok (generateToken n1), st2) ∧
      validateToken st2 (generateToken n1) = some deviceId ∧
      ∀ (code2 : String) (t2 : Int) (n2 : Nat),
        (confirmPairing st2 deviceId code2 t2 n2).1.isOk = false := by
  have hkept_none : ∀ (c : String) (tt : Int),
      (st.pairingRequests.filter
          (fun r : PairingRequest => !(r.deviceId == deviceId))).find?
        (confirmMatch deviceId c tt) = none := by
    intro c tt
    refine List.find?_eq_none.mpr (fun r hr => ?_)
    have hne := (List.mem_filter.mp hr).2
    simp only [Bool.not_eq_true'] at hne
    simp [confirmMatch, hne]
  have hmatch : confirmMatch deviceId (generateCode n0) t1
      (⟨deviceId, name, deviceType, generateCode n0, t0, t0 + 300⟩ :
        PairingRequest) = true := by
    simp [confirmMatch, hexp]
  have hfind : ((st.pairingRequests.filter
        (fun r : PairingRequest => !(r.deviceId == deviceId))) ++
      [(⟨deviceId, name, deviceType, generateCode n0, t0, t0 + 300⟩ :
        PairingRequest)]).find? (confirmMatch deviceId (generateCode n0) t1) =
      some ⟨deviceId, name, deviceType, generateCode n0, t0, t0 + 300⟩ := by
    rw [find?_append_of_none _ _ _ (hkept_none _ _),
      List.find?_cons_of_pos _ hmatch]
  have hfilter : ((st.pairingRequests.filter
        (fun r : PairingRequest => !(r.deviceId == deviceId))) ++
      [(⟨deviceId, name, deviceType, generateCode n0, t0, t0 + 300⟩ :
        PairingRequest)]).filter
        (fun q : PairingRequest => !(q.deviceId == deviceId)) =
      st.pairingRequests.filter
        (fun r : PairingRequest => !(r.deviceId == deviceId)) := by
    rw [List.filter_append, List.filter_filter]
    simp [List.filter, Bool.and_self]
  refine ⟨⟨confirmUpsert st.devices deviceId name deviceType (generateToken n1) t1,
      st.pairingRequests.filter
        (fun r : PairingRequest => !(r.deviceId == deviceId))⟩, ?_, ?_, ?_⟩
  · show confirmPairing
        { devices := st.devices,
          pairingRequests := (st.pairingRequests.filter
              (fun r : PairingRequest => !(r.deviceId == deviceId))) ++
            [⟨deviceId, name, deviceType, generateCode n0, t0, t0 + 300⟩] }
        deviceId (generateCode n0) t1 n1 = _
    unfold confirmPairing
    simp only [hfind, hfilter]
  · unfold validateToken
    exact find?_token_confirmUpsert st.devices deviceId name deviceType
      (generateToken n1) t1 hfresh
  · intro code2 t2 n2
    rw [confirmPairing_isOk_eq]
    rw [hkept_none code2 t2]
    rfl

/-- Witness for C2: from the empty store, pair device `"r1"` requested at
time 0 and confirmed at time 1. -/
theorem pairing_confirm_roundtrip_witness :
    ∃ st2 : StateDb,
      confirmPairing (createPairingRequest ⟨[], []⟩ "r1" "Alpha" "robot" 0 0).2
          "r1" (createPairingRequest ⟨[], []⟩ "r1" "Alpha" "robot" 0 0).1 1 5 =
        (Except.ok (generateToken 5), st2) ∧
      validateToken st2 (generateToken 5) = some "r1" ∧
      ∀ (code2 : String) (t2 : Int) (n2 : Nat),
        (confirmPairing st2 "r1" code2 t2 n2).1.isOk = false :=
  pairing_confirm_roundtrip ⟨[], []⟩ "r1" "Alpha" "robot" 0 1 0 5
    (by decide) (by intro d hd; simp at hd)

/-- C3 counterexample: tokens are derived deterministically from the
clock and the `token` column has no uniqueness constraint, so two pairing
confirmations whose `generate_token` calls see the same nanosecond value
produce two distinct device rows carrying the same non-null token —
`validate_token` is then ambiguous between them. Here devices `"a"` and
`"b"` are both confirmed at nanosecond 7. -/
theorem token_collision_counterexample :
    ((confirmPairing (confirmPairing
        (createPairingRequest (createPairingRequest ⟨[], []⟩ "a" "A" "t" 0 0).2
          "b" "B" "t" 0 0).2
        "a" (generateCode 0) 1 7).2 "b" (generateCode 0) 1 7).2).devices.map
        (fun d => (d.id, d.token)) =
      [("a", some (generateToken 7)), ("b", some (generateToken 7))] ∧
    ("a" : String) ≠ "b" := by
  constructor
  · set_option maxRecDepth 10000 in decide
  · decide

/-- The upsert of a confirmation with a token no prior row holds keeps
non-null tokens pairwise distinct, provided device ids are distinct. -/
theorem tokensDistinct_confirmUpsert (devs : List DeviceRow)
    (deviceId name dtype tok : String) (now : Int)
    (hids : deviceIdsDistinct devs) (hdist : tokensDistinct devs)
    (hfresh : ∀ d ∈ devs, d.token ≠ some tok) :
    tokensDistinct (confirmUpsert devs deviceId name dtype tok now) := by
  unfold confirmUpsert tokensDistinct
  by_cases hany : devs.any (fun d => d.id == deviceId) = true
  · simp only [hany, if_true]
    rw [List.pairwise_map]
    refine List.Pairwise.imp_of_mem ?_ (hids.and hdist)
    intro a b ha hb hab t hat hbt
    by_cases haid : (a.id == deviceId) = true
    · by_cases hbid : (b.id == deviceId) = true
      · exact hab.1 ((eq_of_beq haid).trans (eq_of_beq hbid).symm)
      · simp only [eq_false_of_ne_true hbid, Bool.false_eq_true, if_false] at hbt
        simp only [haid, if_true] at hat
        have : t = tok := by injection hat.symm
        subst this
        exact hfresh b hb hbt
    · by_cases hbid : (b.id == deviceId) = true
      · simp only [eq_false_of_ne_true haid, Bool.false_eq_true, if_false] at hat
        simp only [hbid, if_true] at hbt
        have : tok = t := by injection hbt
        subst this
        exact hfresh a ha hat
      · simp only [eq_false_of_ne_true haid, eq_false_of_ne_true hbid,
          Bool.false_eq_true, if_false] at hat hbt
        exact hab.2 t hat hbt
  · simp only [eq_false_of_ne_true hany, Bool.false_eq_true, if_false]
    rw [List.pairwise_append]
    refine ⟨hdist, List.pairwise_singleton _ _, ?_⟩
    intro a ha b hb t hat hbt
    simp only [List.mem_singleton] at hb
    subst hb
    simp only [Option.some.injEq] at hbt
    subst hbt
    exact hfresh a ha hat

/-- C3 amended: distinct device rows carry distinct non-null tokens only
under the side condition that each minted token is fresh — held by no
existing row at confirmation time. Under that freshness (and primary-key
distinctness of row ids) `confirm_pairing` preserves the token-uniqueness
invariant; without it the invariant fails (see the counterexample: the
schema has no UNIQUE constraint on the token column). -/
theorem confirmPairing_preserves_token_uniqueness (st : StateDb)
    (deviceId code : String) (now : Int) (nanos : Nat)
    (hids : deviceIdsDistinct st.devices)
    (hdist : tokensDistinct st.devices)
    (hfresh : ∀ d ∈ st.devices, d.token ≠ some (generateToken nanos)) :
    tokensDistinct ((confirmPairing st deviceId code now nanos).2).devices := by
  unfold confirmPairing
  cases hf : st.pairingRequests.find? (confirmMatch deviceId code now) with
  | none => exact hdist
  | some r =>
    exact tokensDistinct_confirmUpsert st.devices deviceId r.name r.deviceType
      (generateToken nanos) now hids hdist hfresh

/-- Witness for the amended C3 on the empty store. -/
theorem confirmPairing_preserves_token_uniqueness_witness :
    tokensDistinct ((confirmPairing ⟨[], []⟩ "y" "C" 0 0).2).devices :=
  confirmPairing_preserves_token_uniqueness ⟨[], []⟩ "y" "C" 0 0
    (by simp [deviceIdsDistinct]) (by simp [tokensDistinct])
    (by intro d hd; simp at hd)

/-- A send attempt never touches the registry map. -/
theorem clients_sendToClient (s : Server) (cid : Nat) (m : Msg) :
    (sendToClient s cid m).clients = s.clients := by
  unfold sendToClient
  cases s.clients.lookup cid <;> rfl

/-- A UI broadcast never touches the registry map. -/
theorem clients_broadcastToUis (s : Server) (m : Msg) :
    (broadcastToUis s m).clients = s.clients := rfl

/-- Updating the entry keyed `cid` leaves every other key's lookup
unchanged. -/
theorem lookup_map_ite_ne (l : List (Nat × Client)) (cid : Nat)
    (f : Client → Client) (cid2 : Nat) (h : cid2 ≠ cid) :
    (l.map (fun p => if p.1 == cid then (p.1, f p.2) else p)).lookup cid2 =
      l.lookup cid2 := by
  induction l with
  | nil => rfl
  | cons a l ih =>
    obtain ⟨k, v⟩ := a
    simp only [List.map_cons]
    by_cases hk : (k == cid) = true
    · rw [if_pos hk]
      have h2 : (cid2 == k) = false := by
        rw [eq_of_beq hk]; exact beq_eq_false_iff_ne.mpr h
      rw [List.lookup_cons, List.lookup_cons, h2]
      exact ih
    · rw [if_neg hk, List.lookup_cons, List.lookup_cons]
      cases h2 : (cid2 == k) with
      | true => rfl
      | false => exact ih

/-- Updating the entry keyed `cid` maps its own lookup through the
update. -/
theorem lookup_map_ite_eq (l : List (Nat × Client)) (cid : Nat)
    (f : Client → Client) :
    (l.map (fun p => if p.1 == cid then (p.1, f p.2) else p)).lookup cid =
      (l.lookup cid).map f := by
  induction l with
  | nil => rfl
  | cons a l ih =>
    obtain ⟨k, v⟩ := a
    simp only [List.map_cons]
    by_cases hk : (k == cid) = true
    · rw [if_pos hk]
      have h2 : (cid == k) = true := by
        rw [eq_of_beq hk]; exact beq_self_eq_true cid
      rw [List.lookup_cons, List.lookup_cons, h2]
      rfl
    · rw [if_neg hk]
      have h2 : (cid == k) = false := by
        refine beq_eq_false_iff_ne.mpr (fun he => hk ?_)
        rw [he]; exact beq_self_eq_true k
      rw [List.lookup_cons, List.lookup_cons, h2]
      exact ih

/-- C1 counterexample: with peer 0 already bound to device `"r1"` and
peer 1 registering for `"r1"` with the valid token `"T"`, the register
succeeds and binds peer 1 — yet peer 0's entry is neither closed nor
removed: both peers end up bound to `"r1"` at the same instant, so the
at-most-one-peer-per-device invariant and the last-writer-wins eviction
do not hold. -/
theorem register_keeps_prior_binding_counterexample :
    (((handleRegister
        ⟨[(0, ⟨ClientType.device, some "r1", true⟩),
          (1, ⟨ClientType.unknown, none, true⟩)], 2,
          ⟨[⟨"r1", "Alpha", "robot", "offline", 0, 0, 0, 0, 0, 100, 0, some "T", 0⟩],
            []⟩, []⟩
        1 ⟨some "T", "r1", "robot", "Alpha", 0, 0, 0, []⟩ 5).clients.lookup 1).map
        (fun c => c.deviceId) = some (some "r1")) ∧
    (handleRegister
        ⟨[(0, ⟨ClientType.device, some "r1", true⟩),
          (1, ⟨ClientType.unknown, none, true⟩)], 2,
          ⟨[⟨"r1", "Alpha", "robot", "offline", 0, 0, 0, 0, 0, 100, 0, some "T", 0⟩],
            []⟩, []⟩
        1 ⟨some "T", "r1", "robot", "Alpha", 0, 0, 0, []⟩ 5).clients.lookup 0 =
      some ⟨ClientType.device, some "r1", true⟩ := by
  exact ⟨by decide, by decide⟩

/-- C1 amended: a successful register binds the registering peer as a
Device bound to the resolved device id, and changes no other peer's
registry entry — in particular a prior peer bound to the same device_id
keeps its entry and its transport; no eviction happens. -/
theorem handleRegister_binds_without_eviction (s : Server) (cid : Nat)
    (reg : RegisterMessage) (now : Int) :
    (∀ cid2 : Nat, cid2 ≠ cid →
      (handleRegister s cid reg now).clients.lookup cid2 = s.clients.lookup cid2) ∧
    (∀ (tk sid : String) (c : Client), reg.token = some tk → tk ≠ "" →
      validateToken s.db tk = some sid → s.clients.lookup cid = some c →
      (handleRegister s cid reg now).clients.lookup cid =
        some { c with clientType := ClientType.device,
                      deviceId := some (if reg.deviceId == "" then sid
                                        else reg.deviceId) }) := by
  constructor
  · intro cid2 hne
    unfold handleRegister
    by_cases htok : (reg.token.getD "" == "") = true
    · simp only [htok, if_true, clients_sendToClient]
    · simp only [eq_false_of_ne_true htok, Bool.false_eq_true, if_false]
      cases hv : validateToken s.db (reg.token.getD "") with
      | none => simp only [clients_sendToClient]
      | some storedId =>
        simp only [clients_broadcastToUis, clients_sendToClient]
        exact lookup_map_ite_ne s.clients cid
          (fun c => { clientType := ClientType.device,
                      deviceId := some (if reg.deviceId == "" then storedId
                                        else reg.deviceId),
                      sendOk := c.sendOk }) cid2 hne
  · intro tk sid c h1 h2 h3 h4
    have hgd : reg.token.getD "" = tk := by rw [h1]; rfl
    unfold handleRegister
    rw [hgd]
    have htok : (tk == "") = false := beq_eq_false_iff_ne.mpr h2
    simp only [htok, Bool.false_eq_true, if_false, h3]
    simp only [clients_broadcastToUis, clients_sendToClient]
    have hl := lookup_map_ite_eq s.clients cid
      (fun c => { clientType := ClientType.device,
                  deviceId := some (if reg.deviceId == "" then sid
                                    else reg.deviceId),
                  sendOk := c.sendOk })
    exact hl.trans (by rw [h4]; rfl)

/-- Witness for the amended C1: the counterexample state instantiated
through the theorem. -/
theorem handleRegister_binds_without_eviction_witness :
    (handleRegister
        ⟨[(0, ⟨ClientType.device, some "r1", true⟩),
          (1, ⟨ClientType.unknown, none, true⟩)], 2,
          ⟨[⟨"r1", "Alpha", "robot", "offline", 0, 0, 0, 0, 0, 100, 0, some "T", 0⟩],
            []⟩, []⟩
        1 ⟨some "T", "r1", "robot", "Alpha", 0, 0, 0, []⟩ 5).clients.lookup 1 =
      some ⟨ClientType.device, some "r1", true⟩ := by
  have h := (handleRegister_binds_without_eviction
    ⟨[(0, ⟨ClientType.device, some "r1", true⟩),
      (1, ⟨ClientType.unknown, none, true⟩)], 2,
      ⟨[⟨"r1", "Alpha", "robot", "offline", 0, 0, 0, 0, 0, 100, 0, some "T", 0⟩],
        []⟩, []⟩
    1 ⟨some "T", "r1", "robot", "Alpha", 0, 0, 0, []⟩ 5).2
    "T" "r1" ⟨ClientType.unknown, none, true⟩ rfl (by decide) (by decide) (by decide)
  exact h

/-- C7 counterexample: the register arm discards the result of the
`registered` send (`let _ = client.ws.send(..)`) and broadcasts
`device:online` unconditionally afterwards. With the registering peer's
transport failing writes and one healthy UI peer, a `device:online`
broadcast succeeds while no `registered` reply was ever successfully
sent on the registering connection. -/
theorem online_broadcast_without_registered_reply_counterexample :
    (∃ e ∈ (handleRegister
        ⟨[(0, ⟨ClientType.unknown, none, false⟩), (1, ⟨ClientType.ui, none, true⟩)],
          2, ⟨[⟨"r1", "Alpha", "robot", "offline", 0, 0, 0, 0, 0, 100, 0, some "T", 0⟩],
            []⟩, []⟩
        0 ⟨some "T", "r1", "robot", "Alpha", 0, 0, 0, []⟩ 5).trace,
      isDeviceOnlineMsg e.msg = true ∧ e.ok = true) ∧
    (∀ e ∈ (handleRegister
        ⟨[(0, ⟨ClientType.unknown, none, false⟩), (1, ⟨ClientType.ui, none, true⟩)],
          2, ⟨[⟨"r1", "Alpha", "robot", "offline", 0, 0, 0, 0, 0, 100, 0, some "T", 0⟩],
            []⟩, []⟩
        0 ⟨some "T", "r1", "robot", "Alpha", 0, 0, 0, []⟩ 5).trace,
      isRegisteredMsg e.msg = true → e.ok = false) := by
  exact ⟨by decide, by decide⟩

/-- C7 amended: on a successful register, the `registered` reply is
attempted on the registering peer's connection before the `device:online`
broadcast — every event the registration appends after the reply attempt
is a `device:online` send — but the broadcast happens whether or not the
reply attempt succeeded (the send result is discarded). -/
theorem registered_reply_precedes_online_broadcast (s : Server) (cid : Nat)
    (reg : RegisterMessage) (now : Int) (tk sid : String) (c : Client)
    (h1 : reg.token = some tk) (h2 : tk ≠ "")
    (h3 : validateToken s.db tk = some sid)
    (h4 : s.clients.lookup cid = some c) :
    ∃ tail : List SendEvent,
      (handleRegister s cid reg now).trace =
        s.trace ++ { clientId := cid,
                     msg := Msg.registered (registerDevice reg
                       (if reg.deviceId == "" then sid else reg.deviceId) now),
                     ok := c.sendOk } :: tail ∧
      ∀ e ∈ tail, isDeviceOnlineMsg e.msg = true := by
  have hgd : reg.token.getD "" = tk := by rw [h1]; rfl
  have htok : (tk == "") = false := beq_eq_false_iff_ne.mpr h2
  have hlk := (lookup_map_ite_eq s.clients cid
    (fun c => { clientType := ClientType.device,
                deviceId := some (if reg.deviceId == "" then sid
                                  else reg.deviceId),
                sendOk := c.sendOk })).trans (by rw [h4])
  refine ⟨((s.clients.map (fun p =>
      if p.1 == cid then
        (p.1, { clientType := ClientType.device,
                deviceId := some (if reg.deviceId == "" then sid
                                  else reg.deviceId),
                sendOk := p.2.sendOk })
      else p)).filter (fun p => p.2.clientType == ClientType.ui)).map
      (fun p => { clientId := p.1,
                  msg := Msg.deviceOnline (registerDevice reg
                    (if reg.deviceId == "" then sid else reg.deviceId) now),
                  ok := p.2.sendOk : SendEvent }), ?_, ?_⟩
  · unfold handleRegister
    rw [hgd]
    simp only [htok, Bool.false_eq_true, if_false, h3]
    unfold broadcastToUis sendToClient
    rw [hlk]
    simp [List.append_assoc]
  · intro e he
    obtain ⟨p, -, rfl⟩ := List.mem_map.mp he
    rfl

/-- Witness for the amended C7 with a healthy registering peer and one
UI peer. -/
theorem registered_reply_precedes_online_broadcast_witness :
    ∃ tail : List SendEvent,
      (handleRegister
        ⟨[(0, ⟨ClientType.unknown, none, true⟩), (1, ⟨ClientType.ui, none, true⟩)],
          2, ⟨[⟨"r1", "Alpha", "robot", "offline", 0, 0, 0, 0, 0, 100, 0, some "T", 0⟩],
            []⟩, []⟩
        0 ⟨some "T", "r1", "robot", "Alpha", 0, 0, 0, []⟩ 5).trace =
        ([] : List SendEvent) ++
          { clientId := 0,
            msg := Msg.registered (registerDevice
              ⟨some "T", "r1", "robot", "Alpha", 0, 0, 0, []⟩ "r1" 5),
            ok := true } :: tail ∧
      ∀ e ∈ tail, isDeviceOnlineMsg e.msg = true :=
  registered_reply_precedes_online_broadcast
    ⟨[(0, ⟨ClientType.unknown, none, true⟩), (1, ⟨ClientType.ui, none, true⟩)],
      2, ⟨[⟨"r1", "Alpha", "robot", "offline", 0, 0, 0, 0, 0, 100, 0, some "T", 0⟩],
        []⟩, []⟩
    0 ⟨some "T", "r1", "robot", "Alpha", 0, 0, 0, []⟩ 5 "T" "r1"
    ⟨ClientType.unknown, none, true⟩ rfl (by decide) (by decide) (by decide)

/-- `contains` on character lists is infix containment. -/
theorem containsSub_iff (n h : List Char) :
    containsSub n h = true ↔ n.IsInfix h := by
  unfold containsSub
  rw [List.any_eq_true]
  constructor
  · rintro ⟨t, ht, hp⟩
    rw [List.mem_tails] at ht
    rw [List.isPrefixOf_iff_prefix] at hp
    exact List.infix_iff_prefix_suffix.mpr ⟨t, hp, ht⟩
  · intro hi
    obtain ⟨t, hp, ht⟩ := List.infix_iff_prefix_suffix.mp hi
    exact ⟨t, (List.mem_tails _ _).mpr ht, List.isPrefixOf_iff_prefix.mpr hp⟩

/-- C6 counterexample: a request head whose header line
`UPGRADE: WEBSOCKET` equals `Upgrade: websocket` case-insensitively is
nevertheless not handed to the frame codec — `handle_request` only
substring-matches the two literal spellings `Upgrade: websocket` and
`upgrade: websocket`. -/
theorem upgrade_header_case_counterexample :
    hasUpgradeLineCI "GET / HTTP/1.1\r\nUPGRADE: WEBSOCKET\r\n\r\n" = true ∧
    wsUpgradeHandoff "GET / HTTP/1.1\r\nUPGRADE: WEBSOCKET\r\n\r\n" = false := by
  exact ⟨by decide, by decide⟩

/-- C6 amended: the demux hands a connection to the frame codec exactly
when the raw request head contains the literal substring
`Upgrade: websocket` or `upgrade: websocket` (in particular any request
containing either spelling is handed off); other capitalizations of the
header are not recognized. -/
theorem wsUpgradeHandoff_literal_only (r a b : String) :
    ((r = a ++ "Upgrade: websocket" ++ b ∨ r = a ++ "upgrade: websocket" ++ b) →
      wsUpgradeHandoff r = true) ∧
    (wsUpgradeHandoff r = true →
      List.IsInfix "Upgrade: websocket".data r.data ∨
      List.IsInfix "upgrade: websocket".data r.data) := by
  constructor
  · rintro (rfl | rfl)
    · unfold wsUpgradeHandoff
      rw [Bool.or_eq_true]
      refine Or.inl ((containsSub_iff _ _).mpr ?_)
      rw [String.data_append, String.data_append]
      exact ⟨a.data, b.data, rfl⟩
    · unfold wsUpgradeHandoff
      rw [Bool.or_eq_true]
      refine Or.inr ((containsSub_iff _ _).mpr ?_)
      rw [String.data_append, String.data_append]
      exact ⟨a.data, b.data, rfl⟩
  · intro h
    unfold wsUpgradeHandoff at h
    rw [Bool.or_eq_true] at h
    rcases h with h | h
    · exact Or.inl ((containsSub_iff _ _).mp h)
    · exact Or.inr ((containsSub_iff _ _).mp h)

/-- Witness for the amended C6: a request built around the exact-case
literal is handed off. -/
theorem wsUpgradeHandoff_literal_only_witness :
    wsUpgradeHandoff ("GET / HTTP/1.1\r\n" ++ "Upgrade: websocket" ++ "\r\n\r\n") =
      true :=
  (wsUpgradeHandoff_literal_only _ "GET / HTTP/1.1\r\n" "\r\n\r\n").1 (Or.inl rfl)

/-- `to_be_bytes` produces exactly `k` bytes. -/
theorem beBytes_length (k : Nat) : ∀ n : Nat, (beBytes k n).length = k := by
  induction k with
  | zero => intro n; rfl
  | succ k ih =>
    intro n
    simp [beBytes, ih]

/-- Folding one more low-order byte. -/
theorem fromBeBytes_append_one (l : List Nat) (b : Nat) :
    fromBeBytes (l ++ [b]) = fromBeBytes l * 256 + b := by
  simp [fromBeBytes, List.foldl_append]

/-- `from_be_bytes` inverts `to_be_bytes` up to the width. -/
theorem fromBeBytes_beBytes (k : Nat) : ∀ n : Nat,
    fromBeBytes (beBytes k n) = n % 256 ^ k := by
  induction k with
  | zero => intro n; simp [beBytes, fromBeBytes, Nat.mod_one]
  | succ k ih =>
    intro n
    show fromBeBytes (beBytes k (n / 256) ++ [n % 256]) = n % 256 ^ (k + 1)
    rw [fromBeBytes_append_one, ih]
    have hp : (256 : Nat) ^ (k + 1) = 256 * 256 ^ k := by
      rw [Nat.pow_succ]; exact Nat.mul_comm _ _
    rw [hp, Nat.mod_mul]
    omega

/-- Masking preserves length. -/
theorem maskBytes_length (m : List Nat) : ∀ (i : Nat) (p : List Nat),
    (maskBytes m i p).length = p.length := by
  intro i p
  induction p generalizing i with
  | nil => rfl
  | cons b bs ih => simp [maskBytes, ih]

/-- XOR-masking twice with the same key is the identity — the server's
unmask inverts the client's mask byte for byte. -/
theorem maskBytes_maskBytes (m : List Nat) : ∀ (i : Nat) (p : List Nat),
    maskBytes m i (maskBytes m i p) = p := by
  intro i p
  induction p generalizing i with
  | nil => rfl
  | cons b bs ih =>
    simp only [maskBytes]
    rw [Nat.xor_cancel_right, ih]

/-- `read_exact` on a stream that starts with exactly the requested
bytes. -/
theorem readExact_append (n : Nat) (l r : List Nat) (h : l.length = n) :
    readExact n (l ++ r) = some (l, r) := by
  subst h
  unfold readExact
  rw [if_pos (by simp)]
  rw [List.take_left, List.drop_left]

/-- Low 7 bits of a 7-bit value. -/
theorem and127_of_lt (n : Nat) (h : n < 128) : n &&& 127 = n := by
  have h7 := Nat.and_pow_two_sub_one_eq_mod n 7
  norm_num at h7
  rw [h7, Nat.mod_eq_of_lt h]

/-- The MASK bit of a 7-bit value is clear. -/
theorem and128_of_lt (n : Nat) (h : n < 128) : n &&& 128 = 0 := by
  have h7 : n < 2 ^ 7 := by norm_num; exact h
  have ha := Nat.and_two_pow n 7
  rw [Nat.testBit_eq_false_of_lt h7] at ha
  simpa using ha

/-- Low 7 bits of a MASK-bit-tagged length byte. -/
theorem or128_and127 (n : Nat) (h : n < 128) : (128 ||| n) &&& 127 = n := by
  rw [Nat.and_distrib_right, and127_of_lt n h]
  have h0 : (128 &&& 127 : Nat) = 0 := by decide
  rw [h0, Nat.zero_or]

/-- The MASK bit of a MASK-bit-tagged length byte is set. -/
theorem or128_and128 (n : Nat) (h : n < 128) : (128 ||| n) &&& 128 = 128 := by
  rw [Nat.and_distrib_right, and128_of_lt n h]
  decide

/-- A server text frame decodes (by the same frame reader, masked bit
clear) to exactly its payload, across all three length encodings. -/
theorem wsRead_writeFrame (p : List Nat) (hv : validUTF8 p = true)
    (hlen : p.length < 2 ^ 64) :
    wsRead WsState.open (writeFrame p 0x1) =
      { msg := Except.ok (some p), rest := [], out := [], state := WsState.open } := by
  have hb0 : ((0x80 ||| 0x1 : Nat)) = 129 := by decide
  rcases Nat.lt_or_ge p.length 126 with hl | hge
  · simp only [writeFrame]
    rw [if_pos hl, hb0, List.cons_append, List.singleton_append]
    have hre : readExact 2 (129 :: p.length :: p) = some ([129, p.length], p) := by
      unfold readExact
      rw [if_pos (by simp)]
      rfl
    have hre2 : readExact p.length p = some (p, []) := by
      unfold readExact
      rw [if_pos (Nat.le_refl _)]
      rw [List.take_length, List.drop_length]
    have e3 : (129 &&& 15 : Nat) = 1 := by decide
    have hmk : p.length &&& 128 = 0 := and128_of_lt _ (by omega)
    have h7 : p.length &&& 127 = p.length := and127_of_lt _ (by omega)
    have hne126 : (p.length == 126) = false := beq_eq_false_iff_ne.mpr (by omega)
    have hne127 : (p.length == 127) = false := beq_eq_false_iff_ne.mpr (by omega)
    simp [wsRead, hre, hre2, e3, hmk, h7, hne126, hne127, hv]
  · rcases Nat.lt_or_ge p.length 65536 with hl2 | hge2
    · simp only [writeFrame]
      rw [if_neg (by omega), if_pos hl2, hb0, List.cons_append, List.cons_append]
      have hre : readExact 2 (129 :: 126 :: (beBytes 2 p.length ++ p)) =
          some ([129, 126], beBytes 2 p.length ++ p) := by
        unfold readExact
        rw [if_pos (by simp)]
        rfl
      have hreE : readExact 2 (beBytes 2 p.length ++ p) =
          some (beBytes 2 p.length, p) :=
        readExact_append _ _ _ (beBytes_length 2 _)
      have hre2 : readExact p.length p = some (p, []) := by
        unfold readExact
        rw [if_pos (Nat.le_refl _)]
        rw [List.take_length, List.drop_length]
      have hpl : fromBeBytes (beBytes 2 p.length) % 18446744073709551616 =
          p.length := by
        rw [fromBeBytes_beBytes]
        norm_num
        omega
      have e1 : (126 &&& 127 : Nat) = 126 := by decide
      have e2 : (126 &&& 128 : Nat) = 0 := by decide
      have e3 : (129 &&& 15 : Nat) = 1 := by decide
      simp [wsRead, hre, hreE, hre2, hpl, hv, e1, e2, e3]
    · simp only [writeFrame]
      rw [if_neg (by omega), if_neg (by omega),
        Nat.mod_eq_of_lt hlen, hb0, List.cons_append, List.cons_append]
      have hre : readExact 2 (129 :: 127 :: (beBytes 8 p.length ++ p)) =
          some ([129, 127], beBytes 8 p.length ++ p) := by
        unfold readExact
        rw [if_pos (by simp)]
        rfl
      have hreE : readExact 8 (beBytes 8 p.length ++ p) =
          some (beBytes 8 p.length, p) :=
        readExact_append _ _ _ (beBytes_length 8 _)
      have hre2 : readExact p.length p = some (p, []) := by
        unfold readExact
        rw [if_pos (Nat.le_refl _)]
        rw [List.take_length, List.drop_length]
      have hpl : fromBeBytes (beBytes 8 p.length) % 18446744073709551616 =
          p.length := by
        rw [fromBeBytes_beBytes]
        norm_num
        omega
      have e1 : (127 &&& 127 : Nat) = 127 := by decide
      have e2 : (127 &&& 128 : Nat) = 0 := by decide
      have e3 : (129 &&& 15 : Nat) = 1 := by decide
      simp [wsRead, hre, hreE, hre2, hpl, hv, e1, e2, e3]

/-- A client masked text frame is read back to exactly its payload: the
server reads the 4-byte key and XOR-unmasks `payload[i] ^ mask[i mod 4]`,
across all three length encodings. -/
theorem wsRead_clientTextFrame (p m : List Nat) (hm : m.length = 4)
    (hv : validUTF8 p = true) (hlen : p.length < 2 ^ 64) :
    wsRead WsState.open (clientTextFrame m p) =
      { msg := Except.ok (some p), rest := [], out := [], state := WsState.open } := by
  have hml : (maskBytes m 0 p).length = p.length := maskBytes_length m 0 p
  have hreP : readExact p.length (maskBytes m 0 p) = some (maskBytes m 0 p, []) := by
    unfold readExact
    rw [if_pos (by rw [hml])]
    rw [← hml, List.take_length, List.drop_length]
  have hreM : readExact 4 (m ++ maskBytes m 0 p) = some (m, maskBytes m 0 p) :=
    readExact_append _ _ _ hm
  have e3 : (129 &&& 15 : Nat) = 1 := by decide
  rcases Nat.lt_or_ge p.length 126 with hl | hge
  · simp only [clientTextFrame]
    rw [if_pos hl]
    simp only [List.cons_append, List.singleton_append, List.append_assoc]
    have hre : readExact 2 (0x81 :: (0x80 ||| p.length) :: (m ++ maskBytes m 0 p)) =
        some ([0x81, 0x80 ||| p.length], m ++ maskBytes m 0 p) := by
      unfold readExact
      rw [if_pos (by simp)]
      rfl
    have f1 : (0x80 ||| p.length) &&& 128 = 128 := or128_and128 _ (by omega)
    have f2 : (0x80 ||| p.length) &&& 127 = p.length := or128_and127 _ (by omega)
    have hne126 : (p.length == 126) = false := beq_eq_false_iff_ne.mpr (by omega)
    have hne127 : (p.length == 127) = false := beq_eq_false_iff_ne.mpr (by omega)
    simp [wsRead, hre, hreM, hreP, f1, f2, hne126, hne127, e3,
      maskBytes_maskBytes, hv]
  · rcases Nat.lt_or_ge p.length 65536 with hl2 | hge2
    · simp only [clientTextFrame]
      rw [if_neg (by omega), if_pos hl2,
        (by decide : ((0x80 ||| 126 : Nat)) = 254)]
      simp only [List.cons_append, List.append_assoc]
      have hre : readExact 2
          (0x81 :: 254 :: (beBytes 2 p.length ++ (m ++ maskBytes m 0 p))) =
          some ([0x81, 254], beBytes 2 p.length ++ (m ++ maskBytes m 0 p)) := by
        unfold readExact
        rw [if_pos (by simp)]
        rfl
      have hreE : readExact 2 (beBytes 2 p.length ++ (m ++ maskBytes m 0 p)) =
          some (beBytes 2 p.length, m ++ maskBytes m 0 p) :=
        readExact_append _ _ _ (beBytes_length 2 _)
      have hpl : fromBeBytes (beBytes 2 p.length) % 18446744073709551616 =
          p.length := by
        rw [fromBeBytes_beBytes]
        norm_num
        omega
      have e1 : (254 &&& 127 : Nat) = 126 := by decide
      have e2 : (254 &&& 128 : Nat) = 128 := by decide
      simp [wsRead, hre, hreE, hreM, hreP, hpl, e1, e2, e3,
        maskBytes_maskBytes, hv]
    · simp only [clientTextFrame]
      rw [if_neg (by omega), if_neg (by omega), Nat.mod_eq_of_lt hlen,
        (by decide : ((0x80 ||| 127 : Nat)) = 255)]
      simp only [List.cons_append, List.append_assoc]
      have hre : readExact 2
          (0x81 :: 255 :: (beBytes 8 p.length ++ (m ++ maskBytes m 0 p))) =
          some ([0x81, 255], beBytes 8 p.length ++ (m ++ maskBytes m 0 p)) := by
        unfold readExact
        rw [if_pos (by simp)]
        rfl
      have hreE : readExact 8 (beBytes 8 p.length ++ (m ++ maskBytes m 0 p)) =
          some (beBytes 8 p.length, m ++ maskBytes m 0 p) :=
        readExact_append _ _ _ (beBytes_length 8 _)
      have hpl : fromBeBytes (beBytes 8 p.length) % 18446744073709551616 =
          p.length := by
        rw [fromBeBytes_beBytes]
        norm_num
        omega
      have e1 : (255 &&& 127 : Nat) = 127 := by decide
      have e2 : (255 &&& 128 : Nat) = 128 := by decide
      simp [wsRead, hre, hreE, hreM, hreP, hpl, e1, e2, e3,
        maskBytes_maskBytes, hv]

/-- C8: frame-codec round trip. A server text frame produced by
`write_frame` (FIN set, unmasked, 7/16/64-bit length chosen by
`len < 126` / `len < 65536` / otherwise) reads back as exactly its
payload; a client masked text frame with 4-byte key `m` reads back as
exactly its payload after XOR-unmasking; and the boundary payload
lengths 125, 126, 127, 65535 and 65536 are encoded with the correct
length representation (65536 switching to the 64-bit form). Stated for
valid-UTF-8 payloads shorter than 2^64 bytes (the `usize` range). -/
theorem frame_codec_roundtrip (p m : List Nat) (hm : m.length = 4)
    (hv : validUTF8 p = true) (hlen : p.length < 2 ^ 64) :
    (wsRead WsState.open (writeFrame p 0x1) =
      { msg := Except.ok (some p), rest := [], out := [], state := WsState.open }) ∧
    (wsRead WsState.open (clientTextFrame m p) =
      { msg := Except.ok (some p), rest := [], out := [], state := WsState.open }) ∧
    (p.length = 125 → writeFrame p 0x1 = 0x81 :: 125 :: p) ∧
    (p.length = 126 → writeFrame p 0x1 = 0x81 :: 126 :: 0 :: 126 :: p) ∧
    (p.length = 127 → writeFrame p 0x1 = 0x81 :: 126 :: 0 :: 127 :: p) ∧
    (p.length = 65535 → writeFrame p 0x1 = 0x81 :: 126 :: 255 :: 255 :: p) ∧
    (p.length = 65536 →
      writeFrame p 0x1 = 0x81 :: 127 :: 0 :: 0 :: 0 :: 0 :: 0 :: 1 :: 0 :: 0 :: p) := by
  refine ⟨wsRead_writeFrame p hv hlen, wsRead_clientTextFrame p m hm hv hlen,
    ?_, ?_, ?_, ?_, ?_⟩
  · intro h
    simp only [writeFrame, h]
    rw [if_pos (by norm_num)]
    rw [(by decide : (0x80 ||| 0x1 : Nat) = 0x81)]
    rw [List.cons_append, List.singleton_append]
  · intro h
    simp only [writeFrame, h]
    rw [if_neg (by norm_num), if_pos (by norm_num)]
    rw [(by decide : (0x80 ||| 0x1 : Nat) = 0x81),
      (by decide : beBytes 2 126 = [0, 126])]
    rw [List.cons_append]
    rfl
  · intro h
    simp only [writeFrame, h]
    rw [if_neg (by norm_num), if_pos (by norm_num)]
    rw [(by decide : (0x80 ||| 0x1 : Nat) = 0x81),
      (by decide : beBytes 2 127 = [0, 127])]
    rw [List.cons_append]
    rfl
  · intro h
    simp only [writeFrame, h]
    rw [if_neg (by norm_num), if_pos (by norm_num)]
    rw [(by decide : (0x80 ||| 0x1 : Nat) = 0x81),
      (by decide : beBytes 2 65535 = [255, 255])]
    rw [List.cons_append]
    rfl
  · intro h
    simp only [writeFrame, h]
    rw [if_neg (by norm_num), if_neg (by norm_num)]
    rw [Nat.mod_eq_of_lt (by norm_num)]
    rw [(by decide : (0x80 ||| 0x1 : Nat) = 0x81),
      (by decide : beBytes 8 65536 = [0, 0, 0, 0, 0, 1, 0, 0])]
    rw [List.cons_append]
    rfl

/-- Witness for C8: the payload `"hi"` masked with key `[1, 2, 3, 4]`. -/
theorem frame_codec_roundtrip_witness :
    wsRead WsState.open (clientTextFrame [1, 2, 3, 4] [104, 105]) =
      { msg := Except.ok (some [104, 105]), rest := [], out := [],
        state := WsState.open } :=
  (frame_codec_roundtrip [104, 105] [1, 2, 3, 4] (by decide) (by decide)
    (by decide)).2.1

end GlobalRTS
